import Mathlib

/-!
Shallow embedding of the core of the Expense-tracker MERN application:
the Express route handlers of `src/backend/routes/expenses.js`, the
frontend total calculator of `src/frontend/src/pages/AddExpense.jsx`,
and — modelled from the spec where the Mongoose model files are not part
of the analysed sources — the Expense schema validation and save hook.

Conventions of the embedding:
* JS numbers are modelled as rationals (`ℚ`); a request-body numeric
  field that is missing or non-numeric (JS `undefined` / `NaN`) is
  modelled as `none`, so the source coercion `Number(x) || 0`
  (and `parseFloat(x) || 0`) becomes `Option.getD · 0`.
* MongoDB collections are lists; `_id` is a `Nat` and is unique per
  collection, so deletion/update by `_id` is modelled by
  filtering/mapping on the id.
* Every handler is a function from the database state (plus the
  authenticated identity and the request data) to a triple
  `(response, new database state, trace of store accesses)`.  The trace
  lists the awaited Mongoose calls in the order the handler performs
  them, which makes "no store access happens" and "X is deleted before
  Y" statable.
-/

namespace ExpenseTracker

/-- A persisted Expense document (the Transaction of the spec).
Fields mirror the Mongoose document: `description` and `type` and
`taxType` can be `undefined` (`none`) in memory, the numeric fields are
rationals. -/
structure Transaction where
  id : Nat
  description : Option String
  amount : ℚ
  type : Option String
  taxType : Option String
  taxAmount : ℚ
  totalAmount : ℚ
  userId : Nat
  createdAt : Nat
  deriving Repr, DecidableEq

/-- A persisted User document. -/
structure User where
  id : Nat
  name : String
  email : String
  password : String
  role : String
  deriving Repr, DecidableEq

/-- The document store: the Users and the Expenses collections. -/
structure DB where
  users : List User
  expenses : List Transaction
  deriving Repr, DecidableEq

/-- The authenticated identity derived by the `auth` middleware
(`req.user`): user id and role. -/
structure Identity where
  id : Nat
  role : String
  deriving Repr, DecidableEq

/-- The JSON request body of an expense mutation, as destructured by the
handlers: `{ description, amount, type, taxType, taxAmount, totalAmount }`.
`none` models a missing field (or, for the numeric fields, a value whose
`Number` coercion is `NaN`). -/
structure ExpenseBody where
  description : Option String
  amount : Option ℚ
  type : Option String
  taxType : Option String
  taxAmount : Option ℚ
  totalAmount : Option ℚ
  deriving Repr, DecidableEq

/-- The part of the AddExpense form state read by the frontend
`calculateTotal`: `amount` and `taxAmount` are text inputs whose
`parseFloat` is either a number or `NaN` (`none`). -/
structure ExpenseForm where
  amount : Option ℚ
  taxAmount : Option ℚ
  taxType : String
  deriving Repr, DecidableEq

/-- One awaited Mongoose store call, recorded in the order a handler
performs them. -/
inductive Access where
  | userFind
  | userFindOne
  | userFindByIdAndUpdate
  | userFindByIdAndDelete
  | expenseFind
  | expenseFindOne
  | expenseSave
  | expenseCount
  | expenseDeleteMany
  | expenseFindOneAndDelete
  | expenseFindByIdAndUpdate
  | expenseFindByIdAndDelete
  deriving Repr, DecidableEq

/-- The JSON response a handler produces, with its HTTP status encoded in
the constructor. -/
inductive Resp where
  | created (e : Transaction)
  | ok (e : Transaction)
  | okMsg (m : String)
  | okUser (u : User)
  | okUsers (us : List User)
  | okExpenses (es : List Transaction)
  | okDashboard (totalIncome totalExpense balance : ℚ) (totalRecords : Nat)
  | validationError (m : String)
  | forbidden
  | notFound (m : String)
  deriving Repr, DecidableEq

/-- `calculateTotal` of `src/frontend/src/pages/AddExpense.jsx` (the same
function appears in the admin dashboard source): coerce `amount` and
`taxAmount` with `parseFloat(x) || 0`, then branch on
`taxType === "percentage"`. -/
def calculateTotal (f : ExpenseForm) : ℚ :=
  let amount := f.amount.getD 0
  let tax := f.taxAmount.getD 0
  if f.taxType = "percentage" then amount + amount * tax / 100
  else amount + tax

/-- Modelled from the spec: the Total Calculator
(`computeTotal(amount, taxType, taxAmount)`), implemented in the
repository by the Expense schema's save hook (`models/Expense.js` is not
among the analysed sources).  If taxType is `percentage` the total is
`amount + amount * taxAmount / 100`, otherwise `amount + taxAmount`. -/
def computeTotal (amount : ℚ) (taxType : String) (taxAmount : ℚ) : ℚ :=
  if taxType = "percentage" then amount + amount * taxAmount / 100
  else amount + taxAmount

/-- Modelled from the spec: the Expense schema validation
(`models/Expense.js` is not among the analysed sources).  Spec §3:
description is a required non-empty string, amount is at least 0.01,
type is one of `expense`/`income`, taxType — when set — is one of
`flat`/`percentage`, taxAmount is non-negative. -/
def validateExpense (t : Transaction) : Bool :=
  t.description.any (fun d => d != "") &&
  decide (mkRat 1 100 ≤ t.amount) &&
  t.type.any (fun ty => ty == "expense" || ty == "income") &&
  t.taxType.all (fun tt => tt == "flat" || tt == "percentage") &&
  decide ((0 : ℚ) ≤ t.taxAmount)

/-- Modelled from the spec: Mongoose `document.save()` — validate the
document against the schema, then run the save hook that recomputes
`totalAmount` from (amount, taxType, taxAmount) via the Total
Calculator (an unset taxType behaves as the default `flat`).  Returns
`none` (a `ValidationError`) when validation fails, in which case
nothing is written. -/
def saveExpense (t : Transaction) : Option Transaction :=
  if validateExpense t then
    some { t with totalAmount := computeTotal t.amount (t.taxType.getD "flat") t.taxAmount }
  else none

/-- The in-memory document built by `POST /` before `save()`:
`new Expense({ description, amount: Number(amount) || 0, type, taxType,
taxAmount: Number(taxAmount) || 0, userId: req.user.id })`. -/
def mkExpenseDoc (u : Identity) (b : ExpenseBody) (newId now : Nat) : Transaction :=
  { id := newId
    description := b.description
    amount := b.amount.getD 0
    type := b.type
    taxType := b.taxType
    taxAmount := b.taxAmount.getD 0
    totalAmount := 0
    userId := u.id
    createdAt := now }

/-- `POST /` — create a new expense for the authenticated user.  The
body's `totalAmount` is never destructured; on validation failure the
handler answers 400 and the store is unchanged. -/
def createExpense (db : DB) (u : Identity) (b : ExpenseBody) (newId now : Nat) :
    Resp × DB × List Access :=
  match saveExpense (mkExpenseDoc u b newId now) with
  | some saved =>
      (Resp.created saved, { db with expenses := db.expenses ++ [saved] }, [Access.expenseSave])
  | none => (Resp.validationError "Validation failed", db, [Access.expenseSave])

/-- `GET /dashboard` — totals over ALL of the user's expenses (no
pagination): `reduce((sum, e) => sum + e.totalAmount, 0)` over the
`income` and the `expense` rows, balance is their difference,
totalRecords the number of rows. -/
def dashboard (db : DB) (u : Identity) : Resp × DB × List Access :=
  let es := db.expenses.filter (fun e => e.userId == u.id)
  let totalIncome :=
    (es.filter (fun e => e.type == some "income")).foldl (fun s e => s + e.totalAmount) 0
  let totalExpense :=
    (es.filter (fun e => e.type == some "expense")).foldl (fun s e => s + e.totalAmount) 0
  (Resp.okDashboard totalIncome totalExpense (totalIncome - totalExpense) es.length,
   db, [Access.expenseFind])

/-- `GET /:id` — `findOne({ _id: req.params.id, userId: req.user.id })`;
404 `Expense not found` when no document matches both the id and the
owner. -/
def getById (db : DB) (u : Identity) (tid : Nat) : Resp × DB × List Access :=
  match db.expenses.find? (fun e => e.id == tid && e.userId == u.id) with
  | none => (Resp.notFound "Expense not found", db, [Access.expenseFindOne])
  | some e => (Resp.ok e, db, [Access.expenseFindOne])

/-- The five unconditional field assignments of `PUT /:id`:
`expense.description = description; expense.amount = Number(amount) || 0;
expense.type = type; expense.taxType = taxType;
expense.taxAmount = Number(taxAmount) || 0`. -/
def overwriteFields (e : Transaction) (b : ExpenseBody) : Transaction :=
  { e with
    description := b.description
    amount := b.amount.getD 0
    type := b.type
    taxType := b.taxType
    taxAmount := b.taxAmount.getD 0 }

/-- `PUT /:id` — find the expense by id AND owner, overwrite the five
fields from the body, then `save()` (which validates and recomputes
`totalAmount`).  404 when absent or owned by someone else; 400 and no
store change when validation fails. -/
def updateExpense (db : DB) (u : Identity) (tid : Nat) (b : ExpenseBody) :
    Resp × DB × List Access :=
  match db.expenses.find? (fun e => e.id == tid && e.userId == u.id) with
  | none => (Resp.notFound "Expense not found", db, [Access.expenseFindOne])
  | some e =>
      match saveExpense (overwriteFields e b) with
      | some saved =>
          (Resp.ok saved,
           { db with expenses := db.expenses.map (fun x => if x.id == tid then saved else x) },
           [Access.expenseFindOne, Access.expenseSave])
      | none =>
          (Resp.validationError "Validation failed", db, [Access.expenseFindOne])

/-- `DELETE /:id` — `findOneAndDelete({ _id, userId })`; 404 when no
document matches both, otherwise remove it. -/
def deleteExpense (db : DB) (u : Identity) (tid : Nat) : Resp × DB × List Access :=
  match db.expenses.find? (fun e => e.id == tid && e.userId == u.id) with
  | none => (Resp.notFound "Expense not found", db, [Access.expenseFindOneAndDelete])
  | some _ =>
      (Resp.okMsg "Expense deleted successfully",
       { db with expenses := db.expenses.filter (fun x => !(x.id == tid && x.userId == u.id)) },
       [Access.expenseFindOneAndDelete])

/-- `select('-password')` — the user view with the password hash
removed. -/
def stripPassword (u : User) : User := { u with password := "" }

/-- `GET /admin/users` — role guard first, then `User.find()` with the
password stripped. -/
def adminListUsers (db : DB) (ident : Identity) : Resp × DB × List Access :=
  if ident.role ≠ "admin" then (Resp.forbidden, db, [])
  else (Resp.okUsers (db.users.map stripPassword), db, [Access.userFind])

/-- `PUT /admin/users/:id` — role guard; duplicate-email check
`findOne({ email, _id: { $ne: id } })` answered 400 `Email already
exists`; then `findByIdAndUpdate(id, { name, email, role })`, 404 when
the id is absent. -/
def adminUpdateUser (db : DB) (ident : Identity) (uid : Nat)
    (name email role : String) : Resp × DB × List Access :=
  if ident.role ≠ "admin" then (Resp.forbidden, db, [])
  else
    match db.users.find? (fun x => x.email == email && x.id != uid) with
    | some _ => (Resp.validationError "Email already exists", db, [Access.userFindOne])
    | none =>
        match db.users.find? (fun x => x.id == uid) with
        | none =>
            (Resp.notFound "User not found", db,
             [Access.userFindOne, Access.userFindByIdAndUpdate])
        | some x =>
            (Resp.okUser (stripPassword { x with name := name, email := email, role := role }),
             { db with users := db.users.map (fun y =>
                 if y.id == uid then { y with name := name, email := email, role := role } else y) },
             [Access.userFindOne, Access.userFindByIdAndUpdate])

/-- `DELETE /admin/users/:id` — role guard; `User.findByIdAndDelete(id)`
FIRST (404 when absent, nothing else happens), and only then
`Expense.deleteMany({ userId: id })`.  The trace records that the User
record is deleted before the user's Expenses. -/
def adminDeleteUser (db : DB) (ident : Identity) (uid : Nat) : Resp × DB × List Access :=
  if ident.role ≠ "admin" then (Resp.forbidden, db, [])
  else
    match db.users.find? (fun x => x.id == uid) with
    | none => (Resp.notFound "User not found", db, [Access.userFindByIdAndDelete])
    | some _ =>
        (Resp.okMsg "User and their expenses deleted successfully",
         { users := db.users.filter (fun x => x.id != uid),
           expenses := db.expenses.filter (fun e => e.userId != uid) },
         [Access.userFindByIdAndDelete, Access.expenseDeleteMany])

/-- Insertion into a list kept sorted by `createdAt` descending
(newest first), modelling `.sort({ createdAt: -1 })`. -/
def insertByCreatedAtDesc (e : Transaction) : List Transaction → List Transaction
  | [] => [e]
  | x :: xs =>
      if x.createdAt ≤ e.createdAt then e :: x :: xs
      else x :: insertByCreatedAtDesc e xs

/-- `GET /admin/all-expenses` — role guard, then every expense sorted
newest first (the `populate` of the owner's name/email is a read-only
display join and is not modelled). -/
def adminAllExpenses (db : DB) (ident : Identity) : Resp × DB × List Access :=
  if ident.role ≠ "admin" then (Resp.forbidden, db, [])
  else
    (Resp.okExpenses (db.expenses.foldr insertByCreatedAtDesc []), db, [Access.expenseFind])

/-- The update document of `PUT /admin/expense/:id`:
`findByIdAndUpdate(id, { description, amount, type, taxType, taxAmount,
totalAmount })`.  Mongoose strips `undefined` keys from an update, so a
missing body field leaves the stored field unchanged; no save hook runs
and `totalAmount` is stored exactly as supplied. -/
def applyAdminUpdate (e : Transaction) (b : ExpenseBody) : Transaction :=
  { e with
    description := match b.description with | some d => some d | none => e.description
    amount := b.amount.getD e.amount
    type := match b.type with | some ty => some ty | none => e.type
    taxType := match b.taxType with | some tt => some tt | none => e.taxType
    taxAmount := b.taxAmount.getD e.taxAmount
    totalAmount := b.totalAmount.getD e.totalAmount }

/-- `PUT /admin/expense/:id` — role guard; `findByIdAndUpdate` by id only
(no owner scoping, no validation, no recompute of `totalAmount`); 404
when the id is absent. -/
def adminUpdateExpense (db : DB) (ident : Identity) (tid : Nat) (b : ExpenseBody) :
    Resp × DB × List Access :=
  if ident.role ≠ "admin" then (Resp.forbidden, db, [])
  else
    match db.expenses.find? (fun e => e.id == tid) with
    | none => (Resp.notFound "Expense not found", db, [Access.expenseFindByIdAndUpdate])
    | some e =>
        (Resp.ok (applyAdminUpdate e b),
         { db with expenses := db.expenses.map (fun x =>
             if x.id == tid then applyAdminUpdate e b else x) },
         [Access.expenseFindByIdAndUpdate])

/-- `DELETE /admin/expense/:id` — role guard; `findByIdAndDelete` by id
only; 404 when absent; no cascade. -/
def adminDeleteExpense (db : DB) (ident : Identity) (tid : Nat) : Resp × DB × List Access :=
  if ident.role ≠ "admin" then (Resp.forbidden, db, [])
  else
    match db.expenses.find? (fun e => e.id == tid) with
    | none => (Resp.notFound "Expense not found", db, [Access.expenseFindByIdAndDelete])
    | some _ =>
        (Resp.okMsg "Expense deleted successfully",
         { db with expenses := db.expenses.filter (fun x => x.id != tid) },
         [Access.expenseFindByIdAndDelete])

/-! ## Theorems -/

/-- Claim C1: for every amount ≥ 0 and taxAmount ≥ 0 the total calculator
returns `amount + amount * taxAmount / 100` when taxType is
`percentage`, and `amount + taxAmount` for `flat` or any other value; it
is a total (pure) Lean function, and the spec-level `computeTotal`
agrees with the frontend `calculateTotal` everywhere. -/
theorem calculateTotal_correct (a t : ℚ) (tt : String) (ha : 0 ≤ a) (ht : 0 ≤ t) :
    (tt = "percentage" →
      calculateTotal { amount := some a, taxAmount := some t, taxType := tt } =
        a + a * t / 100) ∧
    (tt ≠ "percentage" →
      calculateTotal { amount := some a, taxAmount := some t, taxType := tt } = a + t) ∧
    computeTotal a tt t =
      calculateTotal { amount := some a, taxAmount := some t, taxType := tt } := by
  refine ⟨fun h => ?_, fun h => ?_, ?_⟩
  · simp [calculateTotal, h]
  · simp [calculateTotal, h]
  · simp [calculateTotal, computeTotal]

/-- Witness for C1 at amount = 100, taxAmount = 10, taxType = percentage. -/
theorem calculateTotal_correct_witness :
    ((0 : ℚ) ≤ 100) ∧ ((0 : ℚ) ≤ 10) ∧
    (("percentage" = "percentage" →
      calculateTotal { amount := some 100, taxAmount := some 10, taxType := "percentage" } =
        100 + 100 * 10 / 100) ∧
    ("percentage" ≠ "percentage" →
      calculateTotal { amount := some 100, taxAmount := some 10, taxType := "percentage" } =
        100 + 10) ∧
    computeTotal 100 "percentage" 10 =
      calculateTotal { amount := some 100, taxAmount := some 10, taxType := "percentage" }) :=
  ⟨by decide, by decide, calculateTotal_correct 100 10 "percentage" (by decide) (by decide)⟩

/-- Claim C3: every admin operation checks `req.user.role` first and, for
a non-admin identity, answers 403 Forbidden with the database untouched
and an empty store-access trace — no read or write of either collection
happens. -/
theorem admin_guard_forbidden (db : DB) (ident : Identity) (uid tid : Nat)
    (n em r : String) (b : ExpenseBody) (h : ident.role ≠ "admin") :
    adminListUsers db ident = (Resp.forbidden, db, []) ∧
    adminUpdateUser db ident uid n em r = (Resp.forbidden, db, []) ∧
    adminDeleteUser db ident uid = (Resp.forbidden, db, []) ∧
    adminAllExpenses db ident = (Resp.forbidden, db, []) ∧
    adminUpdateExpense db ident tid b = (Resp.forbidden, db, []) ∧
    adminDeleteExpense db ident tid = (Resp.forbidden, db, []) := by
  refine ⟨?_, ?_, ?_, ?_, ?_, ?_⟩ <;>
    simp [adminListUsers, adminUpdateUser, adminDeleteUser, adminAllExpenses,
      adminUpdateExpense, adminDeleteExpense, h]

/-- Witness for C3 with a `user`-role identity. -/
theorem admin_guard_forbidden_witness :
    adminListUsers { users := [], expenses := [] } { id := 1, role := "user" } =
      (Resp.forbidden, { users := [], expenses := [] }, []) ∧
    adminUpdateUser { users := [], expenses := [] } { id := 1, role := "user" } 2 "n" "e" "user" =
      (Resp.forbidden, { users := [], expenses := [] }, []) ∧
    adminDeleteUser { users := [], expenses := [] } { id := 1, role := "user" } 2 =
      (Resp.forbidden, { users := [], expenses := [] }, []) ∧
    adminAllExpenses { users := [], expenses := [] } { id := 1, role := "user" } =
      (Resp.forbidden, { users := [], expenses := [] }, []) ∧
    adminUpdateExpense { users := [], expenses := [] } { id := 1, role := "user" } 2
        { description := none, amount := none, type := none, taxType := none,
          taxAmount := none, totalAmount := none } =
      (Resp.forbidden, { users := [], expenses := [] }, []) ∧
    adminDeleteExpense { users := [], expenses := [] } { id := 1, role := "user" } 2 =
      (Resp.forbidden, { users := [], expenses := [] }, []) :=
  admin_guard_forbidden { users := [], expenses := [] } { id := 1, role := "user" } 2 2
    "n" "e" "user"
    { description := none, amount := none, type := none, taxType := none,
      taxAmount := none, totalAmount := none } (by decide)

/-- Claim C5: the user-facing create and update handlers never read the
body's `totalAmount`: two requests identical except in that field
produce identical responses, identical stored data and identical
traces. -/
theorem totalAmount_ignored_by_user_ops (db : DB) (u : Identity) (b : ExpenseBody)
    (x y : Option ℚ) (nid now tid : Nat) :
    createExpense db u { b with totalAmount := x } nid now =
      createExpense db u { b with totalAmount := y } nid now ∧
    updateExpense db u tid { b with totalAmount := x } =
      updateExpense db u tid { b with totalAmount := y } :=
  ⟨rfl, rfl⟩

/-- Folding `+ totalAmount` over a list from any accumulator is the
accumulator plus the sum of the totals (the `reduce` of the dashboard
handler computes a sum). -/
theorem foldl_totalAmount (l : List Transaction) (a : ℚ) :
    l.foldl (fun s e => s + e.totalAmount) a =
      a + (l.map Transaction.totalAmount).sum := by
  induction l generalizing a with
  | nil => simp
  | cons x xs ih => simp [ih, add_assoc]

/-- Claim C9: the dashboard reports totalIncome as the sum of
`totalAmount` over the user's `income` transactions, totalExpense as the
sum over the `expense` ones, balance as their difference and
totalRecords as the count of ALL of the user's transactions — computed
over the unpaginated list, with the store unchanged. -/
theorem dashboard_correct (db : DB) (u : Identity) :
    dashboard db u =
      (Resp.okDashboard
        ((((db.expenses.filter (fun e => e.userId == u.id)).filter
            (fun e => e.type == some "income")).map Transaction.totalAmount).sum)
        ((((db.expenses.filter (fun e => e.userId == u.id)).filter
            (fun e => e.type == some "expense")).map Transaction.totalAmount).sum)
        (((((db.expenses.filter (fun e => e.userId == u.id)).filter
            (fun e => e.type == some "income")).map Transaction.totalAmount).sum) -
         ((((db.expenses.filter (fun e => e.userId == u.id)).filter
            (fun e => e.type == some "expense")).map Transaction.totalAmount).sum))
        ((db.expenses.filter (fun e => e.userId == u.id)).length),
       db, [Access.expenseFind]) := by
  simp [dashboard, foldl_totalAmount]

/-- Claim C2: when no stored expense has both the requested id and the
requesting user as owner — i.e. the id is absent altogether or the
expense belongs to a different user — `GET /:id`, `PUT /:id` and
`DELETE /:id` all answer the one identical 404 response
`Expense not found` and leave the store unchanged, so ownership is
never leaked. -/
theorem ownership_isolation (db : DB) (u : Identity) (tid : Nat) (b : ExpenseBody)
    (h : ∀ e ∈ db.expenses, e.id = tid → e.userId ≠ u.id) :
    getById db u tid = (Resp.notFound "Expense not found", db, [Access.expenseFindOne]) ∧
    updateExpense db u tid b =
      (Resp.notFound "Expense not found", db, [Access.expenseFindOne]) ∧
    deleteExpense db u tid =
      (Resp.notFound "Expense not found", db, [Access.expenseFindOneAndDelete]) := by
  have hf : db.expenses.find? (fun e => e.id == tid && e.userId == u.id) = none := by
    rw [List.find?_eq_none]
    intro e he
    simp only [Bool.and_eq_true, beq_iff_eq, not_and]
    exact fun h1 h2 => h e he h1 h2
  refine ⟨?_, ?_, ?_⟩ <;> simp [getById, updateExpense, deleteExpense, hf]

/-- Witness for C2: user 1 requesting the expense of user 2. -/
theorem ownership_isolation_witness :
    getById
        { users := [],
          expenses := [{ id := 7, description := some "rent", amount := 40, type := some "expense",
                         taxType := some "flat", taxAmount := 0, totalAmount := 40, userId := 2,
                         createdAt := 0 }] }
        { id := 1, role := "user" } 7 =
      (Resp.notFound "Expense not found",
       { users := [],
         expenses := [{ id := 7, description := some "rent", amount := 40, type := some "expense",
                        taxType := some "flat", taxAmount := 0, totalAmount := 40, userId := 2,
                        createdAt := 0 }] }, [Access.expenseFindOne]) ∧
    updateExpense
        { users := [],
          expenses := [{ id := 7, description := some "rent", amount := 40, type := some "expense",
                         taxType := some "flat", taxAmount := 0, totalAmount := 40, userId := 2,
                         createdAt := 0 }] }
        { id := 1, role := "user" } 7
        { description := some "x", amount := some 1, type := some "expense",
          taxType := some "flat", taxAmount := some 0, totalAmount := none } =
      (Resp.notFound "Expense not found",
       { users := [],
         expenses := [{ id := 7, description := some "rent", amount := 40, type := some "expense",
                        taxType := some "flat", taxAmount := 0, totalAmount := 40, userId := 2,
                        createdAt := 0 }] }, [Access.expenseFindOne]) ∧
    deleteExpense
        { users := [],
          expenses := [{ id := 7, description := some "rent", amount := 40, type := some "expense",
                         taxType := some "flat", taxAmount := 0, totalAmount := 40, userId := 2,
                         createdAt := 0 }] }
        { id := 1, role := "user" } 7 =
      (Resp.notFound "Expense not found",
       { users := [],
         expenses := [{ id := 7, description := some "rent", amount := 40, type := some "expense",
                        taxType := some "flat", taxAmount := 0, totalAmount := 40, userId := 2,
                        createdAt := 0 }] }, [Access.expenseFindOneAndDelete]) :=
  ownership_isolation
    { users := [],
      expenses := [{ id := 7, description := some "rent", amount := 40, type := some "expense",
                     taxType := some "flat", taxAmount := 0, totalAmount := 40, userId := 2,
                     createdAt := 0 }] }
    { id := 1, role := "user" } 7
    { description := some "x", amount := some 1, type := some "expense",
      taxType := some "flat", taxAmount := some 0, totalAmount := none }
    (by decide)

/-- Claim C4: the admin expense update persists exactly the
caller-supplied `totalAmount`: whenever the body carries
`totalAmount = t` and the id exists, the response document and every
stored document with that id have `totalAmount = t` — no recomputation
from (amount, taxType, taxAmount) happens. -/
theorem adminUpdateExpense_stores_supplied_total (db : DB) (ident : Identity)
    (tid : Nat) (b : ExpenseBody) (t : ℚ) (e : Transaction)
    (hrole : ident.role = "admin") (ht : b.totalAmount = some t)
    (hfind : db.expenses.find? (fun x => x.id == tid) = some e) :
    (adminUpdateExpense db ident tid b).1 = Resp.ok (applyAdminUpdate e b) ∧
    (applyAdminUpdate e b).totalAmount = t ∧
    ∀ x ∈ (adminUpdateExpense db ident tid b).2.1.expenses,
      x.id = tid → x.totalAmount = t := by
  have htot : (applyAdminUpdate e b).totalAmount = t := by
    simp [applyAdminUpdate, ht]
  refine ⟨?_, htot, ?_⟩
  · simp [adminUpdateExpense, hrole, hfind]
  · intro x hx hxid
    simp only [adminUpdateExpense, hrole] at hx
    simp only [ne_eq, not_true_eq_false, if_false, hfind] at hx
    rcases List.mem_map.mp hx with ⟨a, _, rfl⟩
    by_cases hid : (a.id == tid)
    · simp [hid, htot]
    · simp only [hid, if_neg, Bool.false_eq_true, not_false_eq_true, ite_false] at hxid ⊢
      exact absurd hxid (by simpa using hid)

/-- Witness for C4: the admin supplies totalAmount = 999 although the
amount/tax-derived total of the stored document would be 110. -/
theorem adminUpdateExpense_stores_supplied_total_witness :
    (adminUpdateExpense
        { users := [],
          expenses := [{ id := 3, description := some "tv", amount := 100,
                         type := some "expense", taxType := some "percentage", taxAmount := 10,
                         totalAmount := 110, userId := 2, createdAt := 0 }] }
        { id := 9, role := "admin" } 3
        { description := none, amount := some 100, type := none,
          taxType := some "percentage", taxAmount := some 10, totalAmount := some 999 }).1 =
      Resp.ok (applyAdminUpdate
        { id := 3, description := some "tv", amount := 100, type := some "expense",
          taxType := some "percentage", taxAmount := 10, totalAmount := 110, userId := 2,
          createdAt := 0 }
        { description := none, amount := some 100, type := none,
          taxType := some "percentage", taxAmount := some 10, totalAmount := some 999 }) ∧
    (applyAdminUpdate
        { id := 3, description := some "tv", amount := 100, type := some "expense",
          taxType := some "percentage", taxAmount := 10, totalAmount := 110, userId := 2,
          createdAt := 0 }
        { description := none, amount := some 100, type := none,
          taxType := some "percentage", taxAmount := some 10, totalAmount := some 999 }).totalAmount
      = 999 ∧
    ∀ x ∈ (adminUpdateExpense
        { users := [],
          expenses := [{ id := 3, description := some "tv", amount := 100,
                         type := some "expense", taxType := some "percentage", taxAmount := 10,
                         totalAmount := 110, userId := 2, createdAt := 0 }] }
        { id := 9, role := "admin" } 3
        { description := none, amount := some 100, type := none,
          taxType := some "percentage", taxAmount := some 10,
          totalAmount := some 999 }).2.1.expenses,
      x.id = 3 → x.totalAmount = 999 :=
  adminUpdateExpense_stores_supplied_total
    { users := [],
      expenses := [{ id := 3, description := some "tv", amount := 100, type := some "expense",
                     taxType := some "percentage", taxAmount := 10, totalAmount := 110,
                     userId := 2, createdAt := 0 }] }
    { id := 9, role := "admin" } 3
    { description := none, amount := some 100, type := none,
      taxType := some "percentage", taxAmount := some 10, totalAmount := some 999 }
    999
    { id := 3, description := some "tv", amount := 100, type := some "expense",
      taxType := some "percentage", taxAmount := 10, totalAmount := 110, userId := 2,
      createdAt := 0 }
    (by decide) (by decide) (by decide)

/-- Counterexample to C6's ordering: on a database with one user (id 1)
owning one expense, the admin delete-user operation succeeds but its
store-access trace deletes the User record FIRST and only then the
user's Expenses — not "every Transaction, then the User record" as the
claim states. -/
theorem adminDeleteUser_order_cex :
    (adminDeleteUser
        { users := [{ id := 1, name := "A", email := "a@x", password := "p", role := "user" }],
          expenses := [{ id := 7, description := some "rent", amount := 40,
                         type := some "expense", taxType := some "flat", taxAmount := 0,
                         totalAmount := 40, userId := 1, createdAt := 0 }] }
        { id := 9, role := "admin" } 1).1 =
      Resp.okMsg "User and their expenses deleted successfully" ∧
    (adminDeleteUser
        { users := [{ id := 1, name := "A", email := "a@x", password := "p", role := "user" }],
          expenses := [{ id := 7, description := some "rent", amount := 40,
                         type := some "expense", taxType := some "flat", taxAmount := 0,
                         totalAmount := 40, userId := 1, createdAt := 0 }] }
        { id := 9, role := "admin" } 1).2.2 =
      [Access.userFindByIdAndDelete, Access.expenseDeleteMany] ∧
    (adminDeleteUser
        { users := [{ id := 1, name := "A", email := "a@x", password := "p", role := "user" }],
          expenses := [{ id := 7, description := some "rent", amount := 40,
                         type := some "expense", taxType := some "flat", taxAmount := 0,
                         totalAmount := 40, userId := 1, createdAt := 0 }] }
        { id := 9, role := "admin" } 1).2.2 ≠
      [Access.expenseDeleteMany, Access.userFindByIdAndDelete] := by
  decide

/-- Claim C6 (amended): on success the admin delete-user operation
deletes the User record first and then every Transaction owned by the
user, in that order; afterwards no Transaction with that ownerId and no
User with that id remain.  If the userId is absent it answers NotFound
and deletes nothing. -/
theorem adminDeleteUser_cascade (db : DB) (ident : Identity) (uid : Nat)
    (hrole : ident.role = "admin") :
    ((∀ x ∈ db.users, x.id ≠ uid) →
      adminDeleteUser db ident uid =
        (Resp.notFound "User not found", db, [Access.userFindByIdAndDelete])) ∧
    ((∃ x ∈ db.users, x.id = uid) →
      (adminDeleteUser db ident uid).1 =
        Resp.okMsg "User and their expenses deleted successfully" ∧
      (∀ e ∈ (adminDeleteUser db ident uid).2.1.expenses, e.userId ≠ uid) ∧
      (∀ x ∈ (adminDeleteUser db ident uid).2.1.users, x.id ≠ uid) ∧
      (adminDeleteUser db ident uid).2.2 =
        [Access.userFindByIdAndDelete, Access.expenseDeleteMany]) := by
  constructor
  · intro h
    have hf : db.users.find? (fun x => x.id == uid) = none := by
      rw [List.find?_eq_none]
      intro x hx
      simp only [beq_iff_eq]
      exact h x hx
    simp [adminDeleteUser, hrole, hf]
  · intro h
    have hf : (db.users.find? (fun x => x.id == uid)).isSome := by
      rw [List.find?_isSome]
      rcases h with ⟨x, hx, hxe⟩
      exact ⟨x, hx, by simp [hxe]⟩
    rcases Option.isSome_iff_exists.mp hf with ⟨y, hy⟩
    refine ⟨?_, ?_, ?_, ?_⟩ <;>
      simp [adminDeleteUser, hrole, hy, List.mem_filter]

/-- Witness for C6 (amended) on the success branch. -/
theorem adminDeleteUser_cascade_witness :
    (adminDeleteUser
        { users := [{ id := 1, name := "A", email := "a@x", password := "p", role := "user" }],
          expenses := [{ id := 7, description := some "rent", amount := 40,
                         type := some "expense", taxType := some "flat", taxAmount := 0,
                         totalAmount := 40, userId := 1, createdAt := 0 }] }
        { id := 9, role := "admin" } 1).1 =
      Resp.okMsg "User and their expenses deleted successfully" ∧
    (∀ e ∈ (adminDeleteUser
        { users := [{ id := 1, name := "A", email := "a@x", password := "p", role := "user" }],
          expenses := [{ id := 7, description := some "rent", amount := 40,
                         type := some "expense", taxType := some "flat", taxAmount := 0,
                         totalAmount := 40, userId := 1, createdAt := 0 }] }
        { id := 9, role := "admin" } 1).2.1.expenses, e.userId ≠ 1) ∧
    (∀ x ∈ (adminDeleteUser
        { users := [{ id := 1, name := "A", email := "a@x", password := "p", role := "user" }],
          expenses := [{ id := 7, description := some "rent", amount := 40,
                         type := some "expense", taxType := some "flat", taxAmount := 0,
                         totalAmount := 40, userId := 1, createdAt := 0 }] }
        { id := 9, role := "admin" } 1).2.1.users, x.id ≠ 1) ∧
    (adminDeleteUser
        { users := [{ id := 1, name := "A", email := "a@x", password := "p", role := "user" }],
          expenses := [{ id := 7, description := some "rent", amount := 40,
                         type := some "expense", taxType := some "flat", taxAmount := 0,
                         totalAmount := 40, userId := 1, createdAt := 0 }] }
        { id := 9, role := "admin" } 1).2.2 =
      [Access.userFindByIdAndDelete, Access.expenseDeleteMany] :=
  (adminDeleteUser_cascade
    { users := [{ id := 1, name := "A", email := "a@x", password := "p", role := "user" }],
      expenses := [{ id := 7, description := some "rent", amount := 40,
                     type := some "expense", taxType := some "flat", taxAmount := 0,
                     totalAmount := 40, userId := 1, createdAt := 0 }] }
    { id := 9, role := "admin" } 1 (by decide)).2 (by decide)

/-- Claim C7: the user-facing create fails with a ValidationError — and
persists nothing — whenever the description is missing or empty or the
coerced amount (`Number(amount) || 0`, so also for a missing, zero,
negative or non-numeric amount) is below 0.01; on schema-valid input it
appends exactly one Transaction whose totalAmount comes from the Total
Calculator. -/
theorem createExpense_validation (db : DB) (u : Identity) (b : ExpenseBody)
    (nid now : Nat) :
    ((b.description = none ∨ b.description = some "" ∨ b.amount.getD 0 < mkRat 1 100) →
      createExpense db u b nid now =
        (Resp.validationError "Validation failed", db, [Access.expenseSave])) ∧
    (validateExpense (mkExpenseDoc u b nid now) = true →
      ∃ saved,
        createExpense db u b nid now =
          (Resp.created saved,
           { db with expenses := db.expenses ++ [saved] }, [Access.expenseSave]) ∧
        saved.totalAmount =
          computeTotal (b.amount.getD 0) (b.taxType.getD "flat") (b.taxAmount.getD 0)) := by
  constructor
  · intro h
    have hv : validateExpense (mkExpenseDoc u b nid now) = false := by
      rcases h with h | h | h
      · simp [validateExpense, mkExpenseDoc, h]
      · simp [validateExpense, mkExpenseDoc, h]
      · simp [validateExpense, mkExpenseDoc, not_le.2 h]
    simp [createExpense, saveExpense, hv]
  · intro hv
    refine ⟨{ mkExpenseDoc u b nid now with
              totalAmount := computeTotal (b.amount.getD 0) (b.taxType.getD "flat")
                (b.taxAmount.getD 0) }, ?_, rfl⟩
    have hs : saveExpense (mkExpenseDoc u b nid now) =
        some { mkExpenseDoc u b nid now with
               totalAmount := computeTotal (b.amount.getD 0) (b.taxType.getD "flat")
                 (b.taxAmount.getD 0) } := by
      simp only [saveExpense, hv, if_true]
      simp [mkExpenseDoc]
    simp [createExpense, hs]

/-- Witness for C7: a create with no description is rejected and a fully
valid create is persisted. -/
theorem createExpense_validation_witness :
    (createExpense { users := [], expenses := [] } { id := 1, role := "user" }
        { description := none, amount := some 100, type := some "expense",
          taxType := some "flat", taxAmount := some 0, totalAmount := none } 5 0 =
      (Resp.validationError "Validation failed",
       { users := [], expenses := [] }, [Access.expenseSave])) ∧
    (∃ saved,
      createExpense { users := [], expenses := [] } { id := 1, role := "user" }
          { description := some "food", amount := some 100, type := some "expense",
            taxType := some "flat", taxAmount := some 7, totalAmount := none } 5 0 =
        (Resp.created saved,
         { users := [], expenses := [saved] }, [Access.expenseSave]) ∧
      saved.totalAmount = computeTotal 100 "flat" 7) :=
  ⟨(createExpense_validation { users := [], expenses := [] } { id := 1, role := "user" }
      { description := none, amount := some 100, type := some "expense",
        taxType := some "flat", taxAmount := some 0, totalAmount := none } 5 0).1
      (Or.inl rfl),
   (createExpense_validation { users := [], expenses := [] } { id := 1, role := "user" }
      { description := some "food", amount := some 100, type := some "expense",
        taxType := some "flat", taxAmount := some 7, totalAmount := none } 5 0).2
      (by decide)⟩

/-- Claim C8: the admin user update answers DuplicateEmail exactly when
some user with a different id already holds the target email; when no
user holds it (other than possibly the target) and the id is absent it
answers NotFound, the store unchanged in both cases; and when the
target user itself already holds the email (so, by email uniqueness, no
other user does) the DuplicateEmail failure is impossible. -/
theorem adminUpdateUser_email_rules (db : DB) (ident : Identity) (uid : Nat)
    (nm em rl : String) (hrole : ident.role = "admin") :
    ((∃ x ∈ db.users, x.email = em ∧ x.id ≠ uid) →
      adminUpdateUser db ident uid nm em rl =
        (Resp.validationError "Email already exists", db, [Access.userFindOne])) ∧
    ((∀ x ∈ db.users, x.email = em → x.id = uid) → (∀ x ∈ db.users, x.id ≠ uid) →
      adminUpdateUser db ident uid nm em rl =
        (Resp.notFound "User not found", db,
         [Access.userFindOne, Access.userFindByIdAndUpdate])) ∧
    ((∀ x ∈ db.users, x.email = em → x.id = uid) →
      (adminUpdateUser db ident uid nm em rl).1 ≠
        Resp.validationError "Email already exists") := by
  refine ⟨?_, ?_, ?_⟩
  · intro h
    have hf : (db.users.find? (fun x => x.email == em && x.id != uid)).isSome := by
      rw [List.find?_isSome]
      rcases h with ⟨x, hx, h1, h2⟩
      exact ⟨x, hx, by simp [h1, h2]⟩
    rcases Option.isSome_iff_exists.mp hf with ⟨y, hy⟩
    simp [adminUpdateUser, hrole, hy]
  · intro huniq habs
    have hf1 : db.users.find? (fun x => x.email == em && x.id != uid) = none := by
      rw [List.find?_eq_none]
      intro x hx
      simp only [Bool.and_eq_true, beq_iff_eq, bne_iff_ne, not_and, not_not]
      exact fun h1 => huniq x hx h1
    have hf2 : db.users.find? (fun x => x.id == uid) = none := by
      rw [List.find?_eq_none]
      intro x hx
      simp only [beq_iff_eq]
      exact habs x hx
    simp [adminUpdateUser, hrole, hf1, hf2]
  · intro huniq
    have hf1 : db.users.find? (fun x => x.email == em && x.id != uid) = none := by
      rw [List.find?_eq_none]
      intro x hx
      simp only [Bool.and_eq_true, beq_iff_eq, bne_iff_ne, not_and, not_not]
      exact huniq x hx
    cases hf2 : db.users.find? (fun x => x.id == uid) with
    | none => simp [adminUpdateUser, hrole, hf1, hf2]
    | some y => simp [adminUpdateUser, hrole, hf1, hf2]

/-- Witness for C8: email `b@x` is held by user 2, so updating user 1 to
it is a DuplicateEmail; and updating user 1 to its own email `a@x` is
never a DuplicateEmail. -/
theorem adminUpdateUser_email_rules_witness :
    adminUpdateUser
        { users := [{ id := 1, name := "A", email := "a@x", password := "p", role := "user" },
                    { id := 2, name := "B", email := "b@x", password := "q", role := "user" }],
          expenses := [] }
        { id := 9, role := "admin" } 1 "A" "b@x" "user" =
      (Resp.validationError "Email already exists",
       { users := [{ id := 1, name := "A", email := "a@x", password := "p", role := "user" },
                   { id := 2, name := "B", email := "b@x", password := "q", role := "user" }],
         expenses := [] }, [Access.userFindOne]) ∧
    (adminUpdateUser
        { users := [{ id := 1, name := "A", email := "a@x", password := "p", role := "user" },
                    { id := 2, name := "B", email := "b@x", password := "q", role := "user" }],
          expenses := [] }
        { id := 9, role := "admin" } 1 "A" "a@x" "user").1 ≠
      Resp.validationError "Email already exists" :=
  ⟨(adminUpdateUser_email_rules
      { users := [{ id := 1, name := "A", email := "a@x", password := "p", role := "user" },
                  { id := 2, name := "B", email := "b@x", password := "q", role := "user" }],
        expenses := [] }
      { id := 9, role := "admin" } 1 "A" "b@x" "user" (by decide)).1 (by decide),
   (adminUpdateUser_email_rules
      { users := [{ id := 1, name := "A", email := "a@x", password := "p", role := "user" },
                  { id := 2, name := "B", email := "b@x", password := "q", role := "user" }],
        expenses := [] }
      { id := 9, role := "admin" } 1 "A" "a@x" "user" (by decide)).2.2 (by decide)⟩

/-- Counterexample to C10's "a missing or non-numeric amount … is stored
as 0": updating the stored expense (amount 5) with a body whose amount
is missing coerces the amount to 0, which then fails the schema's
`amount ≥ 0.01` validation, so the handler answers 400 and the stored
amount remains 5 — it is not stored as 0. -/
theorem update_missing_amount_cex :
    updateExpense
        { users := [],
          expenses := [{ id := 1, description := some "lunch", amount := 5,
                         type := some "expense", taxType := some "flat", taxAmount := 0,
                         totalAmount := 5, userId := 1, createdAt := 0 }] }
        { id := 1, role := "user" } 1
        { description := some "lunch", amount := none, type := some "expense",
          taxType := some "flat", taxAmount := some 0, totalAmount := none } =
      (Resp.validationError "Validation failed",
       { users := [],
         expenses := [{ id := 1, description := some "lunch", amount := 5,
                        type := some "expense", taxType := some "flat", taxAmount := 0,
                        totalAmount := 5, userId := 1, createdAt := 0 }] },
       [Access.expenseFindOne]) ∧
    ((updateExpense
        { users := [],
          expenses := [{ id := 1, description := some "lunch", amount := 5,
                         type := some "expense", taxType := some "flat", taxAmount := 0,
                         totalAmount := 5, userId := 1, createdAt := 0 }] }
        { id := 1, role := "user" } 1
        { description := some "lunch", amount := none, type := some "expense",
          taxType := some "flat", taxAmount := some 0,
          totalAmount := none }).2.1.expenses.map Transaction.amount = [5]) ∧
    ((5 : ℚ) ≠ 0) := by
  decide

/-- Claim C10 (amended): the user-facing update builds its candidate
document by unconditionally overwriting all five fields with the
request-body values — the candidate never keeps a prior field value —
and create applies the same `Number(x) || 0` coercion to amount and
taxAmount; a missing taxAmount is therefore stored as 0, but a missing
or non-numeric amount coerces to 0 and then fails the `amount ≥ 0.01`
validation, so nothing is stored and the prior record survives
unchanged. -/
theorem update_overwrite_semantics (e : Transaction) (b : ExpenseBody)
    (u : Identity) (nid now : Nat) :
    (overwriteFields e b).description = b.description ∧
    (overwriteFields e b).amount = b.amount.getD 0 ∧
    (overwriteFields e b).type = b.type ∧
    (overwriteFields e b).taxType = b.taxType ∧
    (overwriteFields e b).taxAmount = b.taxAmount.getD 0 ∧
    (mkExpenseDoc u b nid now).amount = b.amount.getD 0 ∧
    (mkExpenseDoc u b nid now).taxAmount = b.taxAmount.getD 0 ∧
    (b.amount = none →
      ∀ (db : DB) (ident : Identity) (tid : Nat),
        (updateExpense db ident tid b).2.1 = db ∧
        ∀ e0, (updateExpense db ident tid b).1 ≠ Resp.ok e0) := by
  refine ⟨rfl, rfl, rfl, rfl, rfl, rfl, rfl, ?_⟩
  intro hnone db ident tid
  cases hfind : db.expenses.find? (fun x => x.id == tid && x.userId == ident.id) with
  | none => simp [updateExpense, hfind]
  | some e1 =>
      have h0 : ¬ (mkRat 1 100 ≤ (0 : ℚ)) := by decide
      have hv : validateExpense (overwriteFields e1 b) = false := by
        simp [validateExpense, overwriteFields, hnone, h0]
      simp [updateExpense, hfind, saveExpense, hv]

/-- Witness for C10 (amended) with a body missing its amount. -/
theorem update_overwrite_semantics_witness :
    (overwriteFields
        { id := 1, description := some "lunch", amount := 5, type := some "expense",
          taxType := some "flat", taxAmount := 0, totalAmount := 5, userId := 1, createdAt := 0 }
        { description := some "brunch", amount := none, type := some "expense",
          taxType := some "flat", taxAmount := some 2,
          totalAmount := none }).description = some "brunch" ∧
    (overwriteFields
        { id := 1, description := some "lunch", amount := 5, type := some "expense",
          taxType := some "flat", taxAmount := 0, totalAmount := 5, userId := 1, createdAt := 0 }
        { description := some "brunch", amount := none, type := some "expense",
          taxType := some "flat", taxAmount := some 2,
          totalAmount := none }).amount = (none : Option ℚ).getD 0 ∧
    (overwriteFields
        { id := 1, description := some "lunch", amount := 5, type := some "expense",
          taxType := some "flat", taxAmount := 0, totalAmount := 5, userId := 1, createdAt := 0 }
        { description := some "brunch", amount := none, type := some "expense",
          taxType := some "flat", taxAmount := some 2,
          totalAmount := none }).type = some "expense" ∧
    (overwriteFields
        { id := 1, description := some "lunch", amount := 5, type := some "expense",
          taxType := some "flat", taxAmount := 0, totalAmount := 5, userId := 1, createdAt := 0 }
        { description := some "brunch", amount := none, type := some "expense",
          taxType := some "flat", taxAmount := some 2,
          totalAmount := none }).taxType = some "flat" ∧
    (overwriteFields
        { id := 1, description := some "lunch", amount := 5, type := some "expense",
          taxType := some "flat", taxAmount := 0, totalAmount := 5, userId := 1, createdAt := 0 }
        { description := some "brunch", amount := none, type := some "expense",
          taxType := some "flat", taxAmount := some 2,
          totalAmount := none }).taxAmount = (some (2 : ℚ)).getD 0 ∧
    (mkExpenseDoc { id := 1, role := "user" }
        { description := some "brunch", amount := none, type := some "expense",
          taxType := some "flat", taxAmount := some 2, totalAmount := none } 4 0).amount =
      (none : Option ℚ).getD 0 ∧
    (mkExpenseDoc { id := 1, role := "user" }
        { description := some "brunch", amount := none, type := some "expense",
          taxType := some "flat", taxAmount := some 2, totalAmount := none } 4 0).taxAmount =
      (some (2 : ℚ)).getD 0 ∧
    (({ description := some "brunch", amount := none, type := some "expense",
        taxType := some "flat", taxAmount := some 2,
        totalAmount := none } : ExpenseBody).amount = none →
      ∀ (db : DB) (ident : Identity) (tid : Nat),
        (updateExpense db ident tid
            { description := some "brunch", amount := none, type := some "expense",
              taxType := some "flat", taxAmount := some 2, totalAmount := none }).2.1 = db ∧
        ∀ e0, (updateExpense db ident tid
            { description := some "brunch", amount := none, type := some "expense",
              taxType := some "flat", taxAmount := some 2,
              totalAmount := none }).1 ≠ Resp.ok e0) :=
  update_overwrite_semantics
    { id := 1, description := some "lunch", amount := 5, type := some "expense",
      taxType := some "flat", taxAmount := 0, totalAmount := 5, userId := 1, createdAt := 0 }
    { description := some "brunch", amount := none, type := some "expense",
      taxType := some "flat", taxAmount := some 2, totalAmount := none }
    { id := 1, role := "user" } 4 0

end ExpenseTracker
